import Mathlib

/-!
Verification of the policy-driven snapshot lifecycle engine of
`aws-automatic-snapshots.py`.

The script's `main` function, for a given period (hour/day/week/month):
  1. resolves the current instance's metadata,
  2. caches, for every policy, the volumes matching the policy tag
     (optionally restricted to volumes attached to the current instance),
  3. Phase A: for every policy whose retention for the period is nonzero,
     and every cached volume, runs the before-hook, creates a snapshot,
     tags it, and runs the after-hook in a `finally` block,
  4. sleeps a fixed delay iff `policies_to_snapshot` is nonempty,
  5. Phase B: for every policy and cached volume, lists the snapshots
     carrying the period tag, sorts them by start time and deletes all but
     the most recent `N` (all of them when the retention is 0).

Exceptions are modelled explicitly: the per-volume `try/except` blocks of
the source become total functions returning trace records, and the
outermost `try/except` becomes an `aborted` run result.
-/

namespace AwsSnap

/-- The tag key selecting volumes (`config['tag']` in the source). -/
def config_tag : String := "AUTO-SNAPSHOT"

/-- The tag key recording a snapshot's period
(`config['tag_period'] = '%s-PERIOD' % config['tag']`). -/
def config_tag_period : String := config_tag ++ "-PERIOD"

/-- The period selected by the positional CLI argument:
one of `hour`, `day`, `week`, `month`. -/
inductive Period where
  | hour
  | day
  | week
  | month
deriving DecidableEq, Repr

/-- The string naming a period, used as the period tag's value. -/
def Period.name : Period → String
  | .hour => "hour"
  | .day => "day"
  | .week => "week"
  | .month => "month"

/-- One entry of `config['policies']`: the retention count for each
period, the `only_attached_vols` flag and the optional `hook_module`
path. -/
structure PolicySettings where
  hour : Nat
  day : Nat
  week : Nat
  month : Nat
  only_attached_vols : Bool
  hook_module : Option String
deriving DecidableEq, Repr

/-- The retention count a settings entry holds for a period
(`settings.get(period, None)`; the four keys are always present, so the
result is the stored count, and truthiness in the source is the test
against 0). -/
def PolicySettings.get (s : PolicySettings) : Period → Nat
  | .hour => s.hour
  | .day => s.day
  | .week => s.week
  | .month => s.month

/-- An EBS volume as the engine reads it: its id, size and tags. -/
structure Volume where
  id : String
  size : Nat
  tags : List (String × String)
deriving DecidableEq, Repr

/-- A snapshot: its id, owning volume id, creation time (`start_time`,
parsed to a totally ordered value; modelled as a natural number) and
tags. -/
structure Snapshot where
  id : String
  volumeId : String
  startTime : Nat
  tags : List (String × String)
deriving DecidableEq, Repr

/-- Tag lookup on a resource's tag list. -/
def lookupTag (tags : List (String × String)) (k : String) : Option String :=
  (tags.find? (fun t => t.1 == k)).map (fun t => t.2)

/-- The snapshot listing of the pruning phase
(`conn.get_all_snapshots(owner='self', filters={'volume-id': vol.id,
'tag:<tag_period>': period})`): the snapshots of the account whose volume
id matches and whose period tag equals the active period's name. -/
def get_all_snapshots (account : List Snapshot) (volId : String) (period : String) :
    List Snapshot :=
  account.filter (fun s => s.volumeId == volId && lookupTag s.tags config_tag_period == some period)

/-- The comparator of the pruning sort (`cmp(dateutil.parser.parse(
x.start_time), dateutil.parser.parse(y.start_time))`), as a boolean
less-or-equal on start times. -/
def startTimeLe (x y : Snapshot) : Bool := decide (x.startTime ≤ y.startTime)

/-- The `sorted(raw_snapshots, cmp=...)` call: a stable merge sort by
start time, ascending. -/
def sorted_snapshots (raw : List Snapshot) : List Snapshot :=
  raw.mergeSort startTimeLe

/-- The `must_delete` computation of the pruning phase: when the retention
count for the period is nonzero (truthy), every listed snapshot except the
last `keep` of the sorted list (`sorted_snapshots[:-keep]`); when it is 0
(falsy), every listed snapshot. -/
def must_delete (keep : Nat) (raw : List Snapshot) : List Snapshot :=
  if keep = 0 then raw
  else (sorted_snapshots raw).take (raw.length - keep)

/-- The snapshots that remain listed for the volume after the marked ones
are deleted: the last `keep` of the sorted list (none when `keep = 0`,
since every listed snapshot is marked). -/
def kept_snapshots (keep : Nat) (raw : List Snapshot) : List Snapshot :=
  if keep = 0 then []
  else (sorted_snapshots raw).drop (raw.length - keep)

/-- The deletion loop (`for snap in must_delete: snap.delete()`), run
inside the per-volume `try`: the first failing deletion raises, aborting
the loop. Returns the snapshots actually deleted, the snapshots whose
deletion was attempted, and whether an error was raised (and caught by
the per-volume handler). -/
def deleteBatch (fails : String → Bool) : List Snapshot → List Snapshot × List Snapshot × Bool
  | [] => ([], [], false)
  | s :: rest =>
    if fails s.id then ([], [s], true)
    else
      let r := deleteBatch fails rest
      (s :: r.1, s :: r.2.1, r.2.2)

/-- The provider-side outcomes a single volume's pruning can meet: the
listing call's result (an exception or the listed snapshots) and which
snapshot ids fail to delete. -/
structure PruneEnv where
  listResult : Except Unit (List Snapshot)
  deleteFails : String → Bool

/-- What one volume's pruning did: the listing (if it succeeded), the
snapshots marked for deletion, those deleted, those whose deletion was
attempted, and whether the per-volume handler logged an error. -/
structure PruneTrace where
  listed : Option (List Snapshot)
  marked : List Snapshot
  deleted : List Snapshot
  attempted : List Snapshot
  errorLogged : Bool
deriving DecidableEq, Repr

/-- One volume's pruning (the body of the Phase B loop, lines 280-317):
list the period-tagged snapshots, compute `must_delete`, delete them in
order; any exception is caught by the per-volume handler and logged. -/
def prune_volume (keep : Nat) (env : PruneEnv) : PruneTrace :=
  match env.listResult with
  | Except.error _ => ⟨none, [], [], [], true⟩
  | Except.ok raw =>
    let md := must_delete keep raw
    let r := deleteBatch env.deleteFails md
    ⟨some raw, md, r.1, r.2.1, r.2.2⟩

/-- The provider- and hook-side outcomes a single volume's creation flow
can meet: whether `imp.load_source` raises, whether the before-hook
raises, whether `vol.create_snapshot` succeeds, whether `conn.create_tags`
raises, and whether the after-hook raises. -/
structure CreationEnv where
  loadFails : Bool
  beforeFails : Bool
  createOk : Bool
  tagFails : Bool
  afterFails : Bool
deriving DecidableEq, Repr

/-- What one volume's creation flow did: how many times the before-hook
was called, whether the provider creation call was made, the value of the
`snap` variable at the end (`none` when creation was not reached or
raised), whether tagging was attempted and succeeded, the list of
after-hook calls with the snapshot argument each received, and which of
the two handlers (the per-volume one at line 252, the hook one at line
261) logged an error. -/
structure CreateTrace where
  beforeCalls : Nat
  createAttempted : Bool
  created : Option Snapshot
  tagAttempted : Bool
  tagged : Bool
  afterCalls : List (Option Snapshot)
  volErrorLogged : Bool
  hookErrorLogged : Bool
deriving DecidableEq, Repr

/-- One volume's creation flow (the body of the Phase A loop, lines
224-263). With a hook path set: load the module, call the before-hook,
create the snapshot, tag it — each step inside one `try`, so a raise
skips the following steps and is logged by the per-volume handler; the
`finally` block calls the after-hook whenever the module variable was set
(its own raise caught and logged separately). `newSnap` is the snapshot
the provider returns when the creation call succeeds. -/
def process_volume (hook_module_path : Option String) (env : CreationEnv)
    (newSnap : Snapshot) : CreateTrace :=
  match hook_module_path with
  | none =>
    if !env.createOk then
      ⟨0, true, none, false, false, [], true, false⟩
    else if env.tagFails then
      ⟨0, true, some newSnap, true, false, [], true, false⟩
    else
      ⟨0, true, some newSnap, true, true, [], false, false⟩
  | some _ =>
    if env.loadFails then
      ⟨0, false, none, false, false, [], true, false⟩
    else if env.beforeFails then
      ⟨1, false, none, false, false, [none], true, env.afterFails⟩
    else if !env.createOk then
      ⟨1, true, none, false, false, [none], true, env.afterFails⟩
    else if env.tagFails then
      ⟨1, true, some newSnap, true, false, [some newSnap], true, env.afterFails⟩
    else
      ⟨1, true, some newSnap, true, true, [some newSnap], false, env.afterFails⟩

/-- The `policies_to_snapshot` list (line 217): the policies whose
retention count for the active period is truthy, i.e. nonzero. -/
def policies_to_snapshot (policies : List (String × PolicySettings)) (p : Period) :
    List (String × PolicySettings) :=
  policies.filter (fun e => decide (e.2.get p ≠ 0))

/-- The volume-caching loop (lines 204-210): for every policy, list the
volumes matching the policy tag, restricted by attachment when
`only_attached_vols` is set. Accessing `instance_metadata['instance-id']`
when the host identity was not resolved raises, and that raise is only
caught by the outermost handler: the whole cache (and run) is lost. -/
def cache_volumes (identity : Option String) (volumesFor : String → Bool → List Volume) :
    List (String × PolicySettings) →
    Except Unit (List (String × PolicySettings × List Volume))
  | [] => Except.ok []
  | (n, s) :: rest =>
    if s.only_attached_vols && identity.isNone then Except.error ()
    else (cache_volumes identity volumesFor rest).map
      (fun r => (n, s, volumesFor n s.only_attached_vols) :: r)

/-- Phase A (lines 216-263): for every cached policy whose retention for
the period is nonzero, process every cached volume, keyed by (policy
name, volume id). -/
def phaseA (p : Period) (createEnv : String → String → CreationEnv)
    (newSnap : String → String → Snapshot) :
    List (String × PolicySettings × List Volume) →
    List ((String × String) × CreateTrace)
  | [] => []
  | (n, s, vols) :: rest =>
    (if s.get p = 0 then []
     else vols.map (fun v =>
       ((n, v.id), process_volume s.hook_module (createEnv n v.id) (newSnap n v.id))))
    ++ phaseA p createEnv newSnap rest

/-- Phase B (lines 275-317): for every cached policy (retention-0 ones
included) and every cached volume, prune with the policy's retention
count for the period. -/
def phaseB (p : Period) (pruneEnv : String → String → PruneEnv) :
    List (String × PolicySettings × List Volume) →
    List ((String × String) × PruneTrace)
  | [] => []
  | (n, s, vols) :: rest =>
    vols.map (fun v => ((n, v.id), prune_volume (s.get p) (pruneEnv n v.id)))
    ++ phaseB p pruneEnv rest

/-- The (policy name, volume id) pairs of a volume cache, in processing
order. -/
def volume_keys : List (String × PolicySettings × List Volume) → List (String × String)
  | [] => []
  | (n, _, vols) :: rest => vols.map (fun v => (n, v.id)) ++ volume_keys rest

/-- The external world of one run: the resolved host identity (`none`
when `instance-id` is unavailable), the provider's volume listing per
(policy, attached-filter), and the per-(policy, volume) creation and
pruning outcomes. -/
structure RunEnv where
  identity : Option String
  volumesFor : String → Bool → List Volume
  createEnv : String → String → CreationEnv
  newSnap : String → String → Snapshot
  pruneEnv : String → String → PruneEnv

/-- What one invocation of `main` did: whether the outermost handler
caught an exception before the phases ran, the Phase A traces, whether
the fixed `time.sleep(5)` delay happened, and the Phase B traces. -/
structure RunResult where
  aborted : Bool
  creation : List ((String × String) × CreateTrace)
  slept : Bool
  prune : List ((String × String) × PruneTrace)

/-- One invocation of `main` for a period: cache the volumes (a raise
there aborts everything), run Phase A, sleep iff `policies_to_snapshot`
is nonempty (line 265), run Phase B. -/
def run_period (policies : List (String × PolicySettings)) (p : Period) (env : RunEnv) :
    RunResult :=
  match cache_volumes env.identity env.volumesFor policies with
  | Except.error _ => ⟨true, [], false, []⟩
  | Except.ok cached =>
    ⟨false,
     phaseA p env.createEnv env.newSnap cached,
     !(policies_to_snapshot policies p).isEmpty,
     phaseB p env.pruneEnv cached⟩

/-- The (policy, volume) pairs a run prunes: every cached pair, nothing
when the cache raised. -/
def run_keys (policies : List (String × PolicySettings)) (env : RunEnv) :
    List (String × String) :=
  match cache_volumes env.identity env.volumesFor policies with
  | Except.error _ => []
  | Except.ok cached => volume_keys cached

/-! ## Helper lemmas -/

/-- The pruning sort is a permutation of the listing. -/
lemma sorted_snapshots_perm (raw : List Snapshot) : (sorted_snapshots raw).Perm raw :=
  List.mergeSort_perm raw startTimeLe

/-- The start-time comparator is transitive. -/
lemma startTimeLe_trans :
    ∀ a b c : Snapshot, startTimeLe a b → startTimeLe b c → startTimeLe a c := by
  intro a b c h1 h2
  simp only [startTimeLe, decide_eq_true_eq] at h1 h2 ⊢
  omega

/-- The start-time comparator is total. -/
lemma startTimeLe_total : ∀ a b : Snapshot, startTimeLe a b || startTimeLe b a := by
  intro a b
  simp only [startTimeLe]
  rcases Nat.le_total a.startTime b.startTime with h | h <;> simp [h]

/-- The pruning sort orders the listing by start time, ascending. -/
lemma sorted_snapshots_pairwise (raw : List Snapshot) :
    (sorted_snapshots raw).Pairwise (fun a b => startTimeLe a b = true) :=
  List.sorted_mergeSort startTimeLe_trans startTimeLe_total raw

/-- A deletion batch in which no deletion fails deletes everything and
raises nothing. -/
lemma deleteBatch_all_ok (fails : String → Bool) :
    ∀ l : List Snapshot, (∀ s ∈ l, fails s.id = false) →
      deleteBatch fails l = (l, l, false) := by
  intro l
  induction l with
  | nil => intro _; rfl
  | cons s rest ih =>
    intro h
    have hs := h s (List.mem_cons_self s rest)
    simp [deleteBatch, hs, ih (fun x hx => h x (List.mem_cons_of_mem s hx))]

/-- A deletion batch whose first failing deletion is `s` deletes the
prefix before `s`, attempts the prefix plus `s`, and raises: the
snapshots after `s` are never attempted. -/
lemma deleteBatch_stops (fails : String → Bool) (s : Snapshot) (rest : List Snapshot)
    (hs : fails s.id = true) :
    ∀ pre : List Snapshot, (∀ x ∈ pre, fails x.id = false) →
      deleteBatch fails (pre ++ s :: rest) = (pre, pre ++ [s], true) := by
  intro pre
  induction pre with
  | nil => intro _; simp [deleteBatch, hs]
  | cons x xs ih =>
    intro h
    have hx := h x (List.mem_cons_self x xs)
    simp [deleteBatch, hx, ih (fun y hy => h y (List.mem_cons_of_mem x hy))]

/-- The core retention computation for a nonzero retention count: the
kept snapshots are the last `keep` of the sorted listing; marked plus
kept is the whole listing; every marked snapshot is no newer than every
kept one. -/
lemma prune_split (keep : Nat) (raw : List Snapshot) (hk : keep ≠ 0) :
    (kept_snapshots keep raw).length = min raw.length keep ∧
    (must_delete keep raw ++ kept_snapshots keep raw).Perm raw ∧
    ∀ d ∈ must_delete keep raw, ∀ r ∈ kept_snapshots keep raw,
      d.startTime ≤ r.startTime := by
  unfold must_delete kept_snapshots
  rw [if_neg hk, if_neg hk]
  refine ⟨?_, ?_, ?_⟩
  · simp only [List.length_drop, sorted_snapshots, List.length_mergeSort]
    omega
  · rw [List.take_append_drop]
    exact sorted_snapshots_perm raw
  · have hp := sorted_snapshots_pairwise raw
    rw [← List.take_append_drop (raw.length - keep) (sorted_snapshots raw),
      List.pairwise_append] at hp
    intro d hd r hr
    have := hp.2.2 d hd r hr
    simpa [startTimeLe] using this

/-! ## Claims -/

/-- C1: for a policy with retention `keep > 0` for the active period and
a volume with `M` pre-existing same-period snapshots, after one
creation-plus-prune cycle in which every provider call succeeds (so the
pruning lists the `M` pre-existing snapshots together with the one just
created), exactly `min (M+1) keep` same-period snapshots remain, and they
are the most recent ones by creation timestamp: every deleted snapshot is
no newer than every kept one. -/
theorem retention_bound (keep : Nat) (pre : List Snapshot) (snap : Snapshot)
    (hk : keep ≠ 0) :
    (kept_snapshots keep (pre ++ [snap])).length = min (pre.length + 1) keep ∧
    (must_delete keep (pre ++ [snap]) ++ kept_snapshots keep (pre ++ [snap])).Perm
      (pre ++ [snap]) ∧
    ∀ d ∈ must_delete keep (pre ++ [snap]), ∀ r ∈ kept_snapshots keep (pre ++ [snap]),
      d.startTime ≤ r.startTime := by
  have h := prune_split keep (pre ++ [snap]) hk
  simpa using h

/-- Witness for C1: a volume with one pre-existing snapshot, retention 1. -/
theorem retention_bound_witness :
    (1 : Nat) ≠ 0 ∧
    ((kept_snapshots 1 ([⟨"snap-t1", "vol-1", 1, []⟩] ++ [⟨"snap-t2", "vol-1", 2, []⟩])).length =
        min ((([⟨"snap-t1", "vol-1", 1, []⟩] : List Snapshot)).length + 1) 1 ∧
      (must_delete 1 ([⟨"snap-t1", "vol-1", 1, []⟩] ++ [⟨"snap-t2", "vol-1", 2, []⟩]) ++
        kept_snapshots 1 ([⟨"snap-t1", "vol-1", 1, []⟩] ++ [⟨"snap-t2", "vol-1", 2, []⟩])).Perm
        ([⟨"snap-t1", "vol-1", 1, []⟩] ++ [⟨"snap-t2", "vol-1", 2, []⟩]) ∧
      ∀ d ∈ must_delete 1 ([⟨"snap-t1", "vol-1", 1, []⟩] ++ [⟨"snap-t2", "vol-1", 2, []⟩]),
        ∀ r ∈ kept_snapshots 1 ([⟨"snap-t1", "vol-1", 1, []⟩] ++ [⟨"snap-t2", "vol-1", 2, []⟩]),
          d.startTime ≤ r.startTime) :=
  ⟨by decide, retention_bound 1 [⟨"snap-t1", "vol-1", 1, []⟩] ⟨"snap-t2", "vol-1", 2, []⟩ (by decide)⟩

/-- C9: when the listing for a volume already holds no more same-period
snapshots than the retention count, pruning marks nothing, deletes
nothing, attempts nothing, and logs no error — the empty deletion set is
distinguished from an error. -/
theorem prune_noop (keep : Nat) (env : PruneEnv) (raw : List Snapshot)
    (hlist : env.listResult = Except.ok raw) (hle : raw.length ≤ keep) :
    (prune_volume keep env).marked = [] ∧ (prune_volume keep env).deleted = [] ∧
    (prune_volume keep env).attempted = [] ∧ (prune_volume keep env).errorLogged = false := by
  have hmd : must_delete keep raw = [] := by
    unfold must_delete
    by_cases h0 : keep = 0
    · subst h0
      rw [if_pos rfl]
      exact List.length_eq_zero.mp (Nat.le_zero.mp hle)
    · rw [if_neg h0, Nat.sub_eq_zero_of_le hle, List.take_zero]
  simp [prune_volume, hlist, hmd, deleteBatch]

/-- Witness for C9: one listed snapshot, retention 2. -/
theorem prune_noop_witness :
    (⟨Except.ok [⟨"snap-t1", "vol-1", 1, []⟩], fun _ => false⟩ : PruneEnv).listResult =
      Except.ok [⟨"snap-t1", "vol-1", 1, []⟩] ∧
    ([(⟨"snap-t1", "vol-1", 1, []⟩ : Snapshot)]).length ≤ 2 ∧
    ((prune_volume 2 ⟨Except.ok [⟨"snap-t1", "vol-1", 1, []⟩], fun _ => false⟩).marked = [] ∧
      (prune_volume 2 ⟨Except.ok [⟨"snap-t1", "vol-1", 1, []⟩], fun _ => false⟩).deleted = [] ∧
      (prune_volume 2 ⟨Except.ok [⟨"snap-t1", "vol-1", 1, []⟩], fun _ => false⟩).attempted = [] ∧
      (prune_volume 2 ⟨Except.ok [⟨"snap-t1", "vol-1", 1, []⟩], fun _ => false⟩).errorLogged = false) :=
  ⟨rfl, by decide,
    prune_noop 2 ⟨Except.ok [⟨"snap-t1", "vol-1", 1, []⟩], fun _ => false⟩
      [⟨"snap-t1", "vol-1", 1, []⟩] rfl (by decide)⟩

/-- C10: when the pruning listing is the filtered snapshot listing for
the volume and the active period, every snapshot marked for deletion
belongs to that volume and carries the period tag with exactly the active
period's value: differently-tagged or untagged snapshots are never
candidates. -/
theorem marked_only_period_tagged (account : List Snapshot) (volId : String) (p : String)
    (keep : Nat) (env : PruneEnv)
    (hlist : env.listResult = Except.ok (get_all_snapshots account volId p)) :
    ∀ s ∈ (prune_volume keep env).marked,
      s.volumeId = volId ∧ lookupTag s.tags config_tag_period = some p := by
  intro s hs
  have hmarked : (prune_volume keep env).marked =
      must_delete keep (get_all_snapshots account volId p) := by
    simp [prune_volume, hlist]
  rw [hmarked] at hs
  have hsub : s ∈ get_all_snapshots account volId p := by
    unfold must_delete at hs
    by_cases h0 : keep = 0
    · rwa [if_pos h0] at hs
    · rw [if_neg h0] at hs
      have htake := List.take_subset _ _ hs
      simpa [sorted_snapshots] using htake
  simp only [get_all_snapshots, List.mem_filter, Bool.and_eq_true, beq_iff_eq] at hsub
  exact ⟨hsub.2.1, hsub.2.2⟩

/-- Witness for C10: an account with one matching and one non-matching
snapshot. -/
theorem marked_only_period_tagged_witness :
    (⟨Except.ok (get_all_snapshots
        [⟨"snap-t1", "vol-1", 1, [(config_tag_period, "hour")]⟩, ⟨"snap-x", "vol-2", 3, []⟩]
        "vol-1" "hour"), fun _ => false⟩ : PruneEnv).listResult =
      Except.ok (get_all_snapshots
        [⟨"snap-t1", "vol-1", 1, [(config_tag_period, "hour")]⟩, ⟨"snap-x", "vol-2", 3, []⟩]
        "vol-1" "hour") ∧
    ∀ s ∈ (prune_volume 0 ⟨Except.ok (get_all_snapshots
        [⟨"snap-t1", "vol-1", 1, [(config_tag_period, "hour")]⟩, ⟨"snap-x", "vol-2", 3, []⟩]
        "vol-1" "hour"), fun _ => false⟩).marked,
      s.volumeId = "vol-1" ∧ lookupTag s.tags config_tag_period = some "hour" :=
  ⟨rfl, marked_only_period_tagged
    [⟨"snap-t1", "vol-1", 1, [(config_tag_period, "hour")]⟩, ⟨"snap-x", "vol-2", 3, []⟩]
    "vol-1" "hour" 0 _ rfl⟩

/-- C5: for retention count 0, pruning marks every listed same-period
snapshot for deletion; when every deletion succeeds all of them are
deleted with no error, and none remain; and no snapshot is created for
such a policy, since a retention-0 policy is excluded from
`policies_to_snapshot`. -/
theorem zero_retention_purge (env : PruneEnv) (raw : List Snapshot)
    (hlist : env.listResult = Except.ok raw)
    (hdel : ∀ s ∈ raw, env.deleteFails s.id = false) :
    (prune_volume 0 env).marked = raw ∧ (prune_volume 0 env).deleted = raw ∧
    (prune_volume 0 env).errorLogged = false ∧ kept_snapshots 0 raw = [] ∧
    ∀ (n : String) (s : PolicySettings) (l : List (String × PolicySettings)) (p : Period),
      s.get p = 0 → (n, s) ∉ policies_to_snapshot l p := by
  have hmd : must_delete 0 raw = raw := by simp [must_delete]
  refine ⟨?_, ?_, ?_, ?_, ?_⟩
  · simp [prune_volume, hlist, hmd]
  · simp [prune_volume, hlist, hmd, deleteBatch_all_ok env.deleteFails raw hdel]
  · simp [prune_volume, hlist, hmd, deleteBatch_all_ok env.deleteFails raw hdel]
  · simp [kept_snapshots]
  · intro n s l p h0 hmem
    simp only [policies_to_snapshot, List.mem_filter, decide_eq_true_eq] at hmem
    exact hmem.2 h0

/-- Witness for C5: one listed snapshot, every deletion succeeding. -/
theorem zero_retention_purge_witness :
    (⟨Except.ok [⟨"snap-t1", "vol-1", 1, []⟩], fun _ => false⟩ : PruneEnv).listResult =
      Except.ok [⟨"snap-t1", "vol-1", 1, []⟩] ∧
    (∀ s ∈ [(⟨"snap-t1", "vol-1", 1, []⟩ : Snapshot)],
      (fun (_ : String) => false) s.id = false) ∧
    ((prune_volume 0 ⟨Except.ok [⟨"snap-t1", "vol-1", 1, []⟩], fun _ => false⟩).marked =
        [⟨"snap-t1", "vol-1", 1, []⟩] ∧
      (prune_volume 0 ⟨Except.ok [⟨"snap-t1", "vol-1", 1, []⟩], fun _ => false⟩).deleted =
        [⟨"snap-t1", "vol-1", 1, []⟩] ∧
      (prune_volume 0 ⟨Except.ok [⟨"snap-t1", "vol-1", 1, []⟩], fun _ => false⟩).errorLogged =
        false ∧
      kept_snapshots 0 [⟨"snap-t1", "vol-1", 1, []⟩] = [] ∧
      ∀ (n : String) (s : PolicySettings) (l : List (String × PolicySettings)) (p : Period),
        s.get p = 0 → (n, s) ∉ policies_to_snapshot l p) :=
  ⟨rfl, by decide,
    zero_retention_purge ⟨Except.ok [⟨"snap-t1", "vol-1", 1, []⟩], fun _ => false⟩
      [⟨"snap-t1", "vol-1", 1, []⟩] rfl (by decide)⟩

/-- Counterexample to C4: a batch of two marked snapshots whose first
deletion fails. The second snapshot's deletion is never attempted — the
raise is caught by the per-volume handler, not inside the deletion
loop — so a single deletion failure does prevent the remaining deletion
attempts of the batch. -/
theorem deletion_failure_stops_batch_cex :
    (prune_volume 0 ⟨Except.ok
        [⟨"snap-a", "vol-1", 1, []⟩, ⟨"snap-b", "vol-1", 2, []⟩],
        fun i => i == "snap-a"⟩).marked =
      [⟨"snap-a", "vol-1", 1, []⟩, ⟨"snap-b", "vol-1", 2, []⟩] ∧
    (prune_volume 0 ⟨Except.ok
        [⟨"snap-a", "vol-1", 1, []⟩, ⟨"snap-b", "vol-1", 2, []⟩],
        fun i => i == "snap-a"⟩).attempted = [⟨"snap-a", "vol-1", 1, []⟩] ∧
    (⟨"snap-b", "vol-1", 2, []⟩ : Snapshot) ∉
      (prune_volume 0 ⟨Except.ok
        [⟨"snap-a", "vol-1", 1, []⟩, ⟨"snap-b", "vol-1", 2, []⟩],
        fun i => i == "snap-a"⟩).attempted ∧
    (prune_volume 0 ⟨Except.ok
        [⟨"snap-a", "vol-1", 1, []⟩, ⟨"snap-b", "vol-1", 2, []⟩],
        fun i => i == "snap-a"⟩).errorLogged = true := by
  decide

/-- C4 as amended: during pruning of one volume's marked batch, the first
failing deletion raises out of the deletion loop into the per-volume
handler, which logs it; the snapshots already processed are deleted, the
failing one is the last attempted, and the remaining marked snapshots of
that batch are not attempted. (Other volumes are unaffected: the error is
caught per volume.) -/
theorem deletion_failure_aborts_batch (keep : Nat) (env : PruneEnv)
    (raw pre rest : List Snapshot) (s : Snapshot)
    (hlist : env.listResult = Except.ok raw)
    (hmd : must_delete keep raw = pre ++ s :: rest)
    (hpre : ∀ x ∈ pre, env.deleteFails x.id = false)
    (hs : env.deleteFails s.id = true) :
    (prune_volume keep env).deleted = pre ∧
    (prune_volume keep env).attempted = pre ++ [s] ∧
    (prune_volume keep env).errorLogged = true := by
  simp [prune_volume, hlist, hmd, deleteBatch_stops env.deleteFails s rest hs pre hpre]

/-- Witness for the amended C4: a two-snapshot batch whose first deletion
fails. -/
theorem deletion_failure_aborts_batch_witness :
    (⟨Except.ok [⟨"snap-a", "vol-1", 1, []⟩, ⟨"snap-b", "vol-1", 2, []⟩],
        fun i => i == "snap-a"⟩ : PruneEnv).listResult =
      Except.ok [⟨"snap-a", "vol-1", 1, []⟩, ⟨"snap-b", "vol-1", 2, []⟩] ∧
    must_delete 0 [⟨"snap-a", "vol-1", 1, []⟩, ⟨"snap-b", "vol-1", 2, []⟩] =
      [] ++ ⟨"snap-a", "vol-1", 1, []⟩ :: [⟨"snap-b", "vol-1", 2, []⟩] ∧
    ((prune_volume 0 ⟨Except.ok
        [⟨"snap-a", "vol-1", 1, []⟩, ⟨"snap-b", "vol-1", 2, []⟩],
        fun i => i == "snap-a"⟩).deleted = [] ∧
      (prune_volume 0 ⟨Except.ok
        [⟨"snap-a", "vol-1", 1, []⟩, ⟨"snap-b", "vol-1", 2, []⟩],
        fun i => i == "snap-a"⟩).attempted = [] ++ [⟨"snap-a", "vol-1", 1, []⟩] ∧
      (prune_volume 0 ⟨Except.ok
        [⟨"snap-a", "vol-1", 1, []⟩, ⟨"snap-b", "vol-1", 2, []⟩],
        fun i => i == "snap-a"⟩).errorLogged = true) :=
  ⟨rfl, by decide,
    deletion_failure_aborts_batch 0
      ⟨Except.ok [⟨"snap-a", "vol-1", 1, []⟩, ⟨"snap-b", "vol-1", 2, []⟩],
        fun i => i == "snap-a"⟩
      [⟨"snap-a", "vol-1", 1, []⟩, ⟨"snap-b", "vol-1", 2, []⟩]
      [] [⟨"snap-b", "vol-1", 2, []⟩] ⟨"snap-a", "vol-1", 1, []⟩
      rfl (by decide) (by decide) (by decide)⟩

/-- Counterexample to C2: a volume with a hook path whose before-hook
raises. The per-volume error is logged and the before-hook was invoked,
but the provider snapshot-creation call (step 2) is never made: the raise
jumps from inside the single `try` straight past `vol.create_snapshot` to
the handler. -/
theorem before_hook_blocks_creation_cex :
    (process_volume (some "/usr/local/bin/hook.py") ⟨false, true, true, false, false⟩
        ⟨"snap-new", "vol-1", 10, []⟩).beforeCalls = 1 ∧
    (process_volume (some "/usr/local/bin/hook.py") ⟨false, true, true, false, false⟩
        ⟨"snap-new", "vol-1", 10, []⟩).volErrorLogged = true ∧
    (process_volume (some "/usr/local/bin/hook.py") ⟨false, true, true, false, false⟩
        ⟨"snap-new", "vol-1", 10, []⟩).createAttempted = false := by
  decide

/-- C2 as amended: a failure raised by the before-hook is logged and
prevents the provider snapshot-creation call for that volume (creation is
skipped, no snapshot is produced); the after-hook is nevertheless still
invoked (with `none`), and the failure never aborts the surrounding
Snapshot Creator flow — it is absorbed by the per-volume handler. -/
theorem before_hook_failure_skips_creation (hp : String) (env : CreationEnv)
    (newSnap : Snapshot)
    (hload : env.loadFails = false) (hbefore : env.beforeFails = true) :
    (process_volume (some hp) env newSnap).volErrorLogged = true ∧
    (process_volume (some hp) env newSnap).createAttempted = false ∧
    (process_volume (some hp) env newSnap).created = none ∧
    (process_volume (some hp) env newSnap).afterCalls = [none] := by
  simp [process_volume, hload, hbefore]

/-- Witness for the amended C2. -/
theorem before_hook_failure_skips_creation_witness :
    (⟨false, true, true, false, false⟩ : CreationEnv).loadFails = false ∧
    (⟨false, true, true, false, false⟩ : CreationEnv).beforeFails = true ∧
    ((process_volume (some "/usr/local/bin/hook.py") ⟨false, true, true, false, false⟩
        ⟨"snap-new", "vol-1", 10, []⟩).volErrorLogged = true ∧
      (process_volume (some "/usr/local/bin/hook.py") ⟨false, true, true, false, false⟩
        ⟨"snap-new", "vol-1", 10, []⟩).createAttempted = false ∧
      (process_volume (some "/usr/local/bin/hook.py") ⟨false, true, true, false, false⟩
        ⟨"snap-new", "vol-1", 10, []⟩).created = none ∧
      (process_volume (some "/usr/local/bin/hook.py") ⟨false, true, true, false, false⟩
        ⟨"snap-new", "vol-1", 10, []⟩).afterCalls = [none]) :=
  ⟨rfl, rfl,
    before_hook_failure_skips_creation "/usr/local/bin/hook.py"
      ⟨false, true, true, false, false⟩ ⟨"snap-new", "vol-1", 10, []⟩ rfl rfl⟩

/-- C3: whenever the before-hook was invoked for a volume, the after-hook
is invoked exactly once (the `finally` guard holds, since the module
variable was set), and its snapshot argument is the final value of the
`snap` variable — in particular `none` whenever snapshot creation failed
or was skipped. -/
theorem hook_symmetry (hp : Option String) (env : CreationEnv) (newSnap : Snapshot)
    (hbefore : 1 ≤ (process_volume hp env newSnap).beforeCalls) :
    (process_volume hp env newSnap).afterCalls = [(process_volume hp env newSnap).created] ∧
    ((process_volume hp env newSnap).created = none →
      (process_volume hp env newSnap).afterCalls = [none]) := by
  obtain ⟨l, b, c, t, a⟩ := env
  cases hp with
  | none =>
    cases c <;> cases t <;> simp [process_volume] at hbefore
  | some s =>
    cases l <;> cases b <;> cases c <;> cases t <;>
      simp [process_volume] at hbefore ⊢

/-- Witness for C3: the before-hook runs and snapshot creation then
fails; the after-hook is called once, with `none`. -/
theorem hook_symmetry_witness :
    1 ≤ (process_volume (some "/usr/local/bin/hook.py") ⟨false, false, false, false, false⟩
        ⟨"snap-new", "vol-1", 10, []⟩).beforeCalls ∧
    ((process_volume (some "/usr/local/bin/hook.py") ⟨false, false, false, false, false⟩
        ⟨"snap-new", "vol-1", 10, []⟩).afterCalls =
      [(process_volume (some "/usr/local/bin/hook.py") ⟨false, false, false, false, false⟩
        ⟨"snap-new", "vol-1", 10, []⟩).created] ∧
      ((process_volume (some "/usr/local/bin/hook.py") ⟨false, false, false, false, false⟩
        ⟨"snap-new", "vol-1", 10, []⟩).created = none →
        (process_volume (some "/usr/local/bin/hook.py") ⟨false, false, false, false, false⟩
          ⟨"snap-new", "vol-1", 10, []⟩).afterCalls = [none])) :=
  ⟨by decide,
    hook_symmetry (some "/usr/local/bin/hook.py") ⟨false, false, false, false, false⟩
      ⟨"snap-new", "vol-1", 10, []⟩ (by decide)⟩

/-! ## Run-level lemmas -/

/-- The (policy, volume) pairs Phase A visits: every cached volume of
every policy with nonzero retention for the period, independent of any
outcome. -/
def snapshot_keys (p : Period) :
    List (String × PolicySettings × List Volume) → List (String × String)
  | [] => []
  | (n, s, vols) :: rest =>
    (if s.get p = 0 then [] else vols.map (fun v => (n, v.id))) ++ snapshot_keys p rest

/-- Phase B visits exactly the cached (policy, volume) pairs, whatever
the per-volume pruning outcomes. -/
lemma phaseB_keys (p : Period) (pruneEnv : String → String → PruneEnv) :
    ∀ cached, (phaseB p pruneEnv cached).map Prod.fst = volume_keys cached := by
  intro cached
  induction cached with
  | nil => rfl
  | cons e rest ih =>
    obtain ⟨n, s, vols⟩ := e
    simp [phaseB, volume_keys, ih]

/-- Phase A visits exactly the nonzero-retention cached (policy, volume)
pairs, whatever the per-volume creation outcomes. -/
lemma phaseA_keys (p : Period) (ce : String → String → CreationEnv)
    (ns : String → String → Snapshot) :
    ∀ cached, (phaseA p ce ns cached).map Prod.fst = snapshot_keys p cached := by
  intro cached
  induction cached with
  | nil => rfl
  | cons e rest ih =>
    obtain ⟨n, s, vols⟩ := e
    by_cases h0 : s.get p = 0 <;> simp [phaseA, snapshot_keys, h0, ih]

/-- A Phase A entry whose key differs from the one distinguished
(policy, volume) pair is unchanged when the creation outcomes change only
at that pair. -/
lemma phaseA_mem_of_ne (p : Period) (ce ce' : String → String → CreationEnv)
    (ns : String → String → Snapshot) (nA vA : String)
    (hce : ∀ n v, ¬(n = nA ∧ v = vA) → ce' n v = ce n v) :
    ∀ cached, ∀ kt ∈ phaseA p ce' ns cached, kt.1 ≠ (nA, vA) →
      kt ∈ phaseA p ce ns cached := by
  intro cached
  induction cached with
  | nil => intro kt h; simp [phaseA] at h
  | cons e rest ih =>
    obtain ⟨n, s, vols⟩ := e
    intro kt hmem hne
    simp only [phaseA, List.mem_append] at hmem ⊢
    rcases hmem with hl | hr
    · left
      by_cases h0 : s.get p = 0
      · rw [if_pos h0] at hl
        exact absurd hl (List.not_mem_nil kt)
      · rw [if_neg h0] at hl ⊢
        obtain ⟨v, hv, hkt⟩ := List.mem_map.mp hl
        have hk1 : kt.1 = (n, v.id) := by rw [← hkt]
        have hne2 : ¬(n = nA ∧ v.id = vA) := by
          intro hc
          exact hne (by rw [hk1, hc.1, hc.2])
        refine List.mem_map.mpr ⟨v, hv, ?_⟩
        rw [← hkt, hce n v.id hne2]
    · exact Or.inr (ih kt hr hne)

/-- When the host identity is unresolved and some policy requires the
attached-only filter, the volume-caching loop raises (the `KeyError` on
`instance_metadata['instance-id']` escapes to the outermost handler). -/
lemma cache_volumes_error (volumesFor : String → Bool → List Volume)
    (policies : List (String × PolicySettings))
    (hoa : ∃ e ∈ policies, e.2.only_attached_vols = true) :
    cache_volumes none volumesFor policies = Except.error () := by
  induction policies with
  | nil => simp at hoa
  | cons e rest ih =>
    obtain ⟨n, s⟩ := e
    by_cases hs : s.only_attached_vols
    · simp [cache_volumes, hs]
    · have hrest : ∃ x ∈ rest, x.2.only_attached_vols = true := by
        obtain ⟨x, hx, hxoa⟩ := hoa
        rcases List.mem_cons.mp hx with heq | hmem
        · rw [heq] at hxoa
          exact absurd hxoa (by simpa using hs)
        · exact ⟨x, hmem, hxoa⟩
      simp [cache_volumes, hs, ih hrest, Except.map]

/-! ## Run-level claims -/

/-- C6: a creation failure on one volume does not prevent any other
volume from being processed, and Phase B always executes. For two
environments that differ only in the creation outcomes of one
distinguished (policy, volume) pair: the run aborts in neither or both,
the whole pruning phase is identical (so pruning runs for the failing
volume too), pruning covers every cached (policy, volume) pair, Phase A
visits the same (policy, volume) keys, and every other volume's creation
trace is unchanged. -/
theorem creation_failure_isolation (policies : List (String × PolicySettings))
    (p : Period) (env env' : RunEnv)
    (hid : env'.identity = env.identity) (hvf : env'.volumesFor = env.volumesFor)
    (hns : env'.newSnap = env.newSnap) (hpe : env'.pruneEnv = env.pruneEnv)
    (nA vA : String)
    (hce : ∀ n v, ¬(n = nA ∧ v = vA) → env'.createEnv n v = env.createEnv n v) :
    (run_period policies p env').aborted = (run_period policies p env).aborted ∧
    (run_period policies p env').prune = (run_period policies p env).prune ∧
    (run_period policies p env').prune.map Prod.fst = run_keys policies env ∧
    (run_period policies p env').creation.map Prod.fst =
      (run_period policies p env).creation.map Prod.fst ∧
    ∀ kt ∈ (run_period policies p env').creation, kt.1 ≠ (nA, vA) →
      kt ∈ (run_period policies p env).creation := by
  cases hc : cache_volumes env.identity env.volumesFor policies with
  | error e =>
    have hc' : cache_volumes env'.identity env'.volumesFor policies = Except.error e := by
      rw [hid, hvf, hc]
    simp [run_period, run_keys, hc, hc']
  | ok cached =>
    have hc' : cache_volumes env'.identity env'.volumesFor policies = Except.ok cached := by
      rw [hid, hvf, hc]
    simp only [run_period, run_keys, hc, hc']
    refine ⟨by trivial, by rw [hpe], ?_, ?_, ?_⟩
    · rw [hpe]
      exact phaseB_keys p env.pruneEnv cached
    · rw [hns, phaseA_keys, phaseA_keys]
    · rw [hns]
      exact phaseA_mem_of_ne p env.createEnv env'.createEnv env.newSnap nA vA hce cached

/-- Witness for C6: one policy with two volumes; the primed environment
forces a creation failure on the first volume only. -/
theorem creation_failure_isolation_witness :
    (⟨some "i-1", fun _ _ => [⟨"vol-a", 10, []⟩, ⟨"vol-c", 10, []⟩],
        fun n v => if n = "P" ∧ v = "vol-a" then ⟨false, false, false, false, false⟩
          else ⟨false, false, true, false, false⟩,
        fun _ _ => ⟨"snap-new", "vol-1", 10, []⟩,
        fun _ _ => ⟨Except.ok [], fun _ => false⟩⟩ : RunEnv).identity =
      (⟨some "i-1", fun _ _ => [⟨"vol-a", 10, []⟩, ⟨"vol-c", 10, []⟩],
        fun _ _ => ⟨false, false, true, false, false⟩,
        fun _ _ => ⟨"snap-new", "vol-1", 10, []⟩,
        fun _ _ => ⟨Except.ok [], fun _ => false⟩⟩ : RunEnv).identity ∧
    ((run_period [("P", ⟨1, 0, 0, 0, false, none⟩)] Period.hour
        ⟨some "i-1", fun _ _ => [⟨"vol-a", 10, []⟩, ⟨"vol-c", 10, []⟩],
          fun n v => if n = "P" ∧ v = "vol-a" then ⟨false, false, false, false, false⟩
            else ⟨false, false, true, false, false⟩,
          fun _ _ => ⟨"snap-new", "vol-1", 10, []⟩,
          fun _ _ => ⟨Except.ok [], fun _ => false⟩⟩).aborted =
      (run_period [("P", ⟨1, 0, 0, 0, false, none⟩)] Period.hour
        ⟨some "i-1", fun _ _ => [⟨"vol-a", 10, []⟩, ⟨"vol-c", 10, []⟩],
          fun _ _ => ⟨false, false, true, false, false⟩,
          fun _ _ => ⟨"snap-new", "vol-1", 10, []⟩,
          fun _ _ => ⟨Except.ok [], fun _ => false⟩⟩).aborted ∧
      (run_period [("P", ⟨1, 0, 0, 0, false, none⟩)] Period.hour
        ⟨some "i-1", fun _ _ => [⟨"vol-a", 10, []⟩, ⟨"vol-c", 10, []⟩],
          fun n v => if n = "P" ∧ v = "vol-a" then ⟨false, false, false, false, false⟩
            else ⟨false, false, true, false, false⟩,
          fun _ _ => ⟨"snap-new", "vol-1", 10, []⟩,
          fun _ _ => ⟨Except.ok [], fun _ => false⟩⟩).prune =
      (run_period [("P", ⟨1, 0, 0, 0, false, none⟩)] Period.hour
        ⟨some "i-1", fun _ _ => [⟨"vol-a", 10, []⟩, ⟨"vol-c", 10, []⟩],
          fun _ _ => ⟨false, false, true, false, false⟩,
          fun _ _ => ⟨"snap-new", "vol-1", 10, []⟩,
          fun _ _ => ⟨Except.ok [], fun _ => false⟩⟩).prune ∧
      (run_period [("P", ⟨1, 0, 0, 0, false, none⟩)] Period.hour
        ⟨some "i-1", fun _ _ => [⟨"vol-a", 10, []⟩, ⟨"vol-c", 10, []⟩],
          fun n v => if n = "P" ∧ v = "vol-a" then ⟨false, false, false, false, false⟩
            else ⟨false, false, true, false, false⟩,
          fun _ _ => ⟨"snap-new", "vol-1", 10, []⟩,
          fun _ _ => ⟨Except.ok [], fun _ => false⟩⟩).prune.map Prod.fst =
      run_keys [("P", ⟨1, 0, 0, 0, false, none⟩)]
        ⟨some "i-1", fun _ _ => [⟨"vol-a", 10, []⟩, ⟨"vol-c", 10, []⟩],
          fun _ _ => ⟨false, false, true, false, false⟩,
          fun _ _ => ⟨"snap-new", "vol-1", 10, []⟩,
          fun _ _ => ⟨Except.ok [], fun _ => false⟩⟩ ∧
      (run_period [("P", ⟨1, 0, 0, 0, false, none⟩)] Period.hour
        ⟨some "i-1", fun _ _ => [⟨"vol-a", 10, []⟩, ⟨"vol-c", 10, []⟩],
          fun n v => if n = "P" ∧ v = "vol-a" then ⟨false, false, false, false, false⟩
            else ⟨false, false, true, false, false⟩,
          fun _ _ => ⟨"snap-new", "vol-1", 10, []⟩,
          fun _ _ => ⟨Except.ok [], fun _ => false⟩⟩).creation.map Prod.fst =
      (run_period [("P", ⟨1, 0, 0, 0, false, none⟩)] Period.hour
        ⟨some "i-1", fun _ _ => [⟨"vol-a", 10, []⟩, ⟨"vol-c", 10, []⟩],
          fun _ _ => ⟨false, false, true, false, false⟩,
          fun _ _ => ⟨"snap-new", "vol-1", 10, []⟩,
          fun _ _ => ⟨Except.ok [], fun _ => false⟩⟩).creation.map Prod.fst ∧
      ∀ kt ∈ (run_period [("P", ⟨1, 0, 0, 0, false, none⟩)] Period.hour
        ⟨some "i-1", fun _ _ => [⟨"vol-a", 10, []⟩, ⟨"vol-c", 10, []⟩],
          fun n v => if n = "P" ∧ v = "vol-a" then ⟨false, false, false, false, false⟩
            else ⟨false, false, true, false, false⟩,
          fun _ _ => ⟨"snap-new", "vol-1", 10, []⟩,
          fun _ _ => ⟨Except.ok [], fun _ => false⟩⟩).creation, kt.1 ≠ ("P", "vol-a") →
        kt ∈ (run_period [("P", ⟨1, 0, 0, 0, false, none⟩)] Period.hour
          ⟨some "i-1", fun _ _ => [⟨"vol-a", 10, []⟩, ⟨"vol-c", 10, []⟩],
            fun _ _ => ⟨false, false, true, false, false⟩,
            fun _ _ => ⟨"snap-new", "vol-1", 10, []⟩,
            fun _ _ => ⟨Except.ok [], fun _ => false⟩⟩).creation) :=
  ⟨rfl,
    creation_failure_isolation [("P", ⟨1, 0, 0, 0, false, none⟩)] Period.hour
      ⟨some "i-1", fun _ _ => [⟨"vol-a", 10, []⟩, ⟨"vol-c", 10, []⟩],
        fun _ _ => ⟨false, false, true, false, false⟩,
        fun _ _ => ⟨"snap-new", "vol-1", 10, []⟩,
        fun _ _ => ⟨Except.ok [], fun _ => false⟩⟩
      ⟨some "i-1", fun _ _ => [⟨"vol-a", 10, []⟩, ⟨"vol-c", 10, []⟩],
        fun n v => if n = "P" ∧ v = "vol-a" then ⟨false, false, false, false, false⟩
          else ⟨false, false, true, false, false⟩,
        fun _ _ => ⟨"snap-new", "vol-1", 10, []⟩,
        fun _ _ => ⟨Except.ok [], fun _ => false⟩⟩
      rfl rfl rfl rfl "P" "vol-a"
      (fun n v h => by
        show (if n = "P" ∧ v = "vol-a" then
            (⟨false, false, false, false, false⟩ : CreationEnv)
          else ⟨false, false, true, false, false⟩) = ⟨false, false, true, false, false⟩
        rw [if_neg h])⟩

/-- Counterexample to C7: one policy with nonzero hourly retention but no
matching volumes. No snapshot creation is attempted (Phase A processes no
volume), yet the fixed delay still occurs, because the source guards the
sleep on `policies_to_snapshot` being nonempty, not on any creation
having been attempted. -/
theorem sleep_without_attempt_cex :
    (run_period [("CRITICAL", ⟨1, 0, 0, 0, false, none⟩)] Period.hour
        ⟨some "i-1", fun _ _ => [], fun _ _ => ⟨false, false, true, false, false⟩,
          fun _ _ => ⟨"snap-new", "vol-1", 10, []⟩,
          fun _ _ => ⟨Except.ok [], fun _ => false⟩⟩).creation = [] ∧
    (run_period [("CRITICAL", ⟨1, 0, 0, 0, false, none⟩)] Period.hour
        ⟨some "i-1", fun _ _ => [], fun _ _ => ⟨false, false, true, false, false⟩,
          fun _ _ => ⟨"snap-new", "vol-1", 10, []⟩,
          fun _ _ => ⟨Except.ok [], fun _ => false⟩⟩).slept = true := by
  decide

/-- C7 as amended: the fixed delay between Phase A and Phase B occurs if
and only if at least one policy has a nonzero retention count for the
active period (`policies_to_snapshot` nonempty) — regardless of whether
any snapshot creation was actually attempted; when no policy requires
creation, pruning begins with no delay. -/
theorem sleep_iff_policy_requires_creation (policies : List (String × PolicySettings))
    (p : Period) (env : RunEnv) (cached : List (String × PolicySettings × List Volume))
    (hcache : cache_volumes env.identity env.volumesFor policies = Except.ok cached) :
    (run_period policies p env).slept = true ↔ policies_to_snapshot policies p ≠ [] := by
  simp only [run_period, hcache]
  cases h : policies_to_snapshot policies p <;> simp [h, List.isEmpty]

/-- Witness for the amended C7: the configuration of the counterexample,
where the delay occurs although no creation was attempted. -/
theorem sleep_iff_policy_requires_creation_witness :
    cache_volumes (some "i-1") (fun _ _ => []) [("CRITICAL", ⟨1, 0, 0, 0, false, none⟩)] =
      Except.ok [("CRITICAL", ⟨1, 0, 0, 0, false, none⟩, [])] ∧
    ((run_period [("CRITICAL", ⟨1, 0, 0, 0, false, none⟩)] Period.hour
        ⟨some "i-1", fun _ _ => [], fun _ _ => ⟨false, false, true, false, false⟩,
          fun _ _ => ⟨"snap-new", "vol-1", 10, []⟩,
          fun _ _ => ⟨Except.ok [], fun _ => false⟩⟩).slept = true ↔
      policies_to_snapshot [("CRITICAL", ⟨1, 0, 0, 0, false, none⟩)] Period.hour ≠ []) :=
  ⟨rfl,
    sleep_iff_policy_requires_creation [("CRITICAL", ⟨1, 0, 0, 0, false, none⟩)] Period.hour
      ⟨some "i-1", fun _ _ => [], fun _ _ => ⟨false, false, true, false, false⟩,
        fun _ _ => ⟨"snap-new", "vol-1", 10, []⟩,
        fun _ _ => ⟨Except.ok [], fun _ => false⟩⟩
      [("CRITICAL", ⟨1, 0, 0, 0, false, none⟩, [])] rfl⟩

/-- Counterexample to C8: two policies — the first requires the
attached-only filter, the second does not and has a nonzero retention —
and an unresolved host identity. The whole run aborts: the second
policy's volumes are neither created nor pruned, so the failure is not
contained to the policy requiring the filter. -/
theorem identity_failure_not_policy_local_cex :
    (run_period [("ATTACHED", ⟨1, 0, 0, 0, true, none⟩), ("OTHER", ⟨1, 0, 0, 0, false, none⟩)]
        Period.hour
        ⟨none, fun _ _ => [⟨"vol-b", 100, []⟩],
          fun _ _ => ⟨false, false, true, false, false⟩,
          fun _ _ => ⟨"snap-new", "vol-1", 10, []⟩,
          fun _ _ => ⟨Except.ok [], fun _ => false⟩⟩).aborted = true ∧
    (run_period [("ATTACHED", ⟨1, 0, 0, 0, true, none⟩), ("OTHER", ⟨1, 0, 0, 0, false, none⟩)]
        Period.hour
        ⟨none, fun _ _ => [⟨"vol-b", 100, []⟩],
          fun _ _ => ⟨false, false, true, false, false⟩,
          fun _ _ => ⟨"snap-new", "vol-1", 10, []⟩,
          fun _ _ => ⟨Except.ok [], fun _ => false⟩⟩).creation = [] ∧
    (run_period [("ATTACHED", ⟨1, 0, 0, 0, true, none⟩), ("OTHER", ⟨1, 0, 0, 0, false, none⟩)]
        Period.hour
        ⟨none, fun _ _ => [⟨"vol-b", 100, []⟩],
          fun _ _ => ⟨false, false, true, false, false⟩,
          fun _ _ => ⟨"snap-new", "vol-1", 10, []⟩,
          fun _ _ => ⟨Except.ok [], fun _ => false⟩⟩).prune = [] := by
  decide

/-- C8 as amended: when resolving the host identity fails and some
policy requires the attached-only filter, the failure is fatal for the
whole run, not just for that policy: the raise escapes the volume-caching
loop to the outermost handler, the run aborts, and no policy's volumes
are created or pruned. -/
theorem identity_failure_aborts_run (policies : List (String × PolicySettings))
    (p : Period) (env : RunEnv)
    (hid : env.identity = none)
    (hoa : ∃ e ∈ policies, e.2.only_attached_vols = true) :
    (run_period policies p env).aborted = true ∧
    (run_period policies p env).creation = [] ∧
    (run_period policies p env).prune = [] := by
  have hc : cache_volumes env.identity env.volumesFor policies = Except.error () := by
    rw [hid]
    exact cache_volumes_error env.volumesFor policies hoa
  simp [run_period, hc]

/-- Witness for the amended C8: the two-policy configuration of the
counterexample. -/
theorem identity_failure_aborts_run_witness :
    (⟨none, fun _ _ => [⟨"vol-b", 100, []⟩],
        fun _ _ => ⟨false, false, true, false, false⟩,
        fun _ _ => ⟨"snap-new", "vol-1", 10, []⟩,
        fun _ _ => ⟨Except.ok [], fun _ => false⟩⟩ : RunEnv).identity = none ∧
    (∃ e ∈ [(("ATTACHED" : String), (⟨1, 0, 0, 0, true, none⟩ : PolicySettings)),
        ("OTHER", ⟨1, 0, 0, 0, false, none⟩)], e.2.only_attached_vols = true) ∧
    ((run_period [("ATTACHED", ⟨1, 0, 0, 0, true, none⟩), ("OTHER", ⟨1, 0, 0, 0, false, none⟩)]
        Period.hour
        ⟨none, fun _ _ => [⟨"vol-b", 100, []⟩],
          fun _ _ => ⟨false, false, true, false, false⟩,
          fun _ _ => ⟨"snap-new", "vol-1", 10, []⟩,
          fun _ _ => ⟨Except.ok [], fun _ => false⟩⟩).aborted = true ∧
      (run_period [("ATTACHED", ⟨1, 0, 0, 0, true, none⟩), ("OTHER", ⟨1, 0, 0, 0, false, none⟩)]
        Period.hour
        ⟨none, fun _ _ => [⟨"vol-b", 100, []⟩],
          fun _ _ => ⟨false, false, true, false, false⟩,
          fun _ _ => ⟨"snap-new", "vol-1", 10, []⟩,
          fun _ _ => ⟨Except.ok [], fun _ => false⟩⟩).creation = [] ∧
      (run_period [("ATTACHED", ⟨1, 0, 0, 0, true, none⟩), ("OTHER", ⟨1, 0, 0, 0, false, none⟩)]
        Period.hour
        ⟨none, fun _ _ => [⟨"vol-b", 100, []⟩],
          fun _ _ => ⟨false, false, true, false, false⟩,
          fun _ _ => ⟨"snap-new", "vol-1", 10, []⟩,
          fun _ _ => ⟨Except.ok [], fun _ => false⟩⟩).prune = []) :=
  ⟨rfl, by decide,
    identity_failure_aborts_run
      [("ATTACHED", ⟨1, 0, 0, 0, true, none⟩), ("OTHER", ⟨1, 0, 0, 0, false, none⟩)]
      Period.hour
      ⟨none, fun _ _ => [⟨"vol-b", 100, []⟩],
        fun _ _ => ⟨false, false, true, false, false⟩,
        fun _ _ => ⟨"snap-new", "vol-1", 10, []⟩,
        fun _ _ => ⟨Except.ok [], fun _ => false⟩⟩
      rfl (by decide)⟩

end AwsSnap
